import Mathlib

/-!
Verification of the release-notes generator (`scripts/generate_release_notes.py`).

Strings are modelled as `List Char` (`Str`).  The Python string primitives the
script uses (`str.strip`, `str.split`, `str.replace`, `str.startswith`,
`str.endswith`, `str.lower`) are embedded below; recursive ones use an explicit
fuel argument (always called with fuel larger than the input length) so that
they are structurally recursive and reduce inside the kernel.

The three external HTTP services (GitHub query, LLM completion, Slack post) are
modelled as oracles in an `Env` structure: each oracle returns `Except Str α`,
`.error e` standing for the Python call raising an exception whose `str` is `e`.
-/

abbrev Str := List Char

/-- The set Python treats as whitespace for `str.strip()` (ASCII part; the
script never manipulates the exotic Unicode whitespace characters). -/
def isPySpace (c : Char) : Bool :=
  c = ' ' || c = '\t' || c = '\n' || c = '\r' || c = '\x0b' || c = '\x0c'

/-- Python `s.lstrip()`. -/
def pyLStrip (s : Str) : Str := s.dropWhile isPySpace

/-- Python `s.rstrip()`. -/
def pyRStrip (s : Str) : Str := (s.reverse.dropWhile isPySpace).reverse

/-- Python `s.strip()`. -/
def pyStrip (s : Str) : Str := pyRStrip (pyLStrip s)

/-- Python `s.strip('*')` (used on the first line of a repository section). -/
def stripStars (s : Str) : Str :=
  ((s.dropWhile (fun c => c = '*')).reverse.dropWhile (fun c => c = '*')).reverse

/-- Fuel-driven worker for Python `s.split(sep)` with a non-empty separator:
scan left to right, starting a new piece at each non-overlapping occurrence of
`sep`.  The fuel-exhausted case is never reached when called with fuel
`> s.length`. -/
def pySplitGo (sep : Str) : Nat → Str → List Str
  | 0, s => [s]
  | _ + 1, [] => [[]]
  | fuel + 1, c :: rest =>
    if sep ≠ [] ∧ sep.isPrefixOf (c :: rest) then
      [] :: pySplitGo sep fuel (List.drop sep.length (c :: rest))
    else
      match pySplitGo sep fuel rest with
      | [] => [[c]]
      | p :: ps => (c :: p) :: ps

/-- Python `s.split(sep)` for a non-empty `sep` (the script always splits on
`'\n'`, the 150-character divider, or `'PR #'`). -/
def pySplit (s sep : Str) : List Str := pySplitGo sep (s.length + 1) s

/-- Fuel-driven worker for Python `s.replace(old, new)` with non-empty `old`:
replace non-overlapping occurrences left to right. -/
def pyReplaceGo (old new : Str) : Nat → Str → Str
  | 0, s => s
  | _ + 1, [] => []
  | fuel + 1, c :: rest =>
    if old ≠ [] ∧ old.isPrefixOf (c :: rest) then
      new ++ pyReplaceGo old new fuel (List.drop old.length (c :: rest))
    else
      c :: pyReplaceGo old new fuel rest

/-- Python `s.replace(old, new)` for non-empty `old`. -/
def pyReplace (s old new : Str) : Str := pyReplaceGo old new (s.length + 1) s

/-- Fuel-driven counter of non-overlapping occurrences of `sep`, scanning left
to right exactly as `pySplitGo` does. -/
def countOccGo (sep : Str) : Nat → Str → Nat
  | 0, _ => 0
  | _ + 1, [] => 0
  | fuel + 1, c :: rest =>
    if sep ≠ [] ∧ sep.isPrefixOf (c :: rest) then
      countOccGo sep fuel (List.drop sep.length (c :: rest)) + 1
    else
      countOccGo sep fuel rest

/-- Number of non-overlapping occurrences of `sep` in `s` (left-to-right scan,
the count Python computes as `len(s.split(sep)) - 1`). -/
def countOcc (s sep : Str) : Nat := countOccGo sep (s.length + 1) s

/-- Python `sep.join(xs)`: the pieces with `sep` between consecutive ones. -/
def pyJoin (sep : Str) : List Str → Str
  | [] => []
  | [x] => x
  | x :: y :: xs => x ++ sep ++ pyJoin sep (y :: xs)

/-- The script's source is stored with double-encoded UTF-8: the bullet
`â€¢` is the three characters U+00E2 U+20AC U+00A2. -/
def bulletStr : Str := "â€¢".data

/-- The sub-bullet `â—¦`: U+00E2 U+2014 U+00A6. -/
def subBulletStr : Str := "â—¦".data

/-- The box-drawing character `â”€` used for the divider: U+00E2 U+201D U+20AC. -/
def boxStr : Str := "â”€".data

/-- The newspaper emoji `ðŸ“°` of the overall header: U+00F0 U+0178 U+201C U+00B0. -/
def newspaperStr : Str := "ðŸ“°".data

/-- The divider marker: the box-drawing string repeated 50 times
(`"â”€" * 50`), used both when terminating a summary and when splitting the
aggregated message into sections. -/
def divider50 : Str := List.flatten (List.replicate 50 boxStr)

/-- `PullRequest` dataclass (title, body, number, url, merged_at, labels,
repo_name).  `merged_at` is an opaque timestamp. -/
structure PullRequest where
  title : Str
  body : Str
  number : Nat
  url : Str
  merged_at : Int
  labels : List Str
  repo_name : Str
deriving DecidableEq

/-- The dependency-PR test: `re.compile(r'^chore\(deps\)', re.IGNORECASE)`
matched at the start of the title.  Case-insensitivity is the ASCII fold
(`Char.toLower`), which is how the all-ASCII pattern `chore(deps)` matches. -/
def deps_match (title : Str) : Bool :=
  ("chore(deps)".data).isPrefixOf (title.map Char.toLower)

/-- Result of `filter_prs`: the dictionary with keys `'regular'` and `'deps'`. -/
structure FilterResult where
  regular : List PullRequest
  deps : List PullRequest
deriving DecidableEq

/-- `ReleaseNotesGenerator.filter_prs`: one pass over the PRs appending each to
`deps` when its title matches the dependency pattern, to `regular` otherwise. -/
def filter_prs (prs : List PullRequest) : FilterResult :=
  prs.foldl
    (fun acc pr =>
      if deps_match pr.title then
        { acc with deps := acc.deps ++ [pr] }
      else
        { acc with regular := acc.regular ++ [pr] })
    ⟨[], []⟩

/-- The sentinel returned by the formatter on an empty PR list. -/
def noPRsSentinel : Str := "No pull requests found.".data

/-- Decimal rendering of a natural number, Python `str(n)` for `n ≥ 0`. -/
def natStr (n : Nat) : Str := (toString n).data

/-- The per-PR block of `format_prs_for_summary`: title line, then optional
description, label and URL lines. -/
def formatOnePR (pr : PullRequest) : Str :=
  let title := pyStrip pr.title
  let body := if pr.body ≠ [] then pyStrip pr.body else []
  let labels_text :=
    if pr.labels ≠ [] then "Labels: ".data ++ pyJoin ", ".data pr.labels else []
  let pr_info := "PR #".data ++ natStr pr.number ++ ": ".data ++ title
  let pr_info := if body ≠ [] then pr_info ++ "\nDescription: ".data ++ body else pr_info
  let pr_info := if labels_text ≠ [] then pr_info ++ "\n".data ++ labels_text else pr_info
  if pr.url ≠ [] then pr_info ++ "\nURL: ".data ++ pr.url else pr_info

/-- `ReleaseNotesGenerator.format_prs_for_summary`: the sentinel on an empty
list, otherwise the per-PR blocks joined by blank lines. -/
def format_prs_for_summary (prs : List PullRequest) : Str :=
  if prs = [] then noPRsSentinel
  else pyJoin "\n\n".data (prs.map formatOnePR)

/-- JSON values as produced by `json.loads`.  Numbers keep their source lexeme
(the script never does arithmetic on them; the lexeme is only echoed when a
number reaches an f-string, and tested for zero by truthiness). -/
inductive Json where
  | null
  | bool (b : Bool)
  | num (lexeme : Str)
  | str (s : Str)
  | arr (xs : List Json)
  | obj (kvs : List (Str × Json))

/-- JSON whitespace (the four characters `json.loads` skips between tokens). -/
def isJsonSpace (c : Char) : Bool := c = ' ' || c = '\t' || c = '\n' || c = '\r'

def skipJsonWs (s : Str) : Str := s.dropWhile isJsonSpace

def hexDigitVal (c : Char) : Option Nat :=
  if c.isDigit then some (c.toNat - '0'.toNat)
  else if 'a' ≤ c ∧ c ≤ 'f' then some (c.toNat - 'a'.toNat + 10)
  else if 'A' ≤ c ∧ c ≤ 'F' then some (c.toNat - 'A'.toNat + 10)
  else none

/-- Body of a JSON string after the opening quote: returns the decoded content
and the remainder after the closing quote.  Strict mode: raw control
characters below 0x20 are rejected, escapes are the JSON ones. -/
def parseJsonStringGo : Nat → Str → Option (Str × Str)
  | 0, _ => none
  | _ + 1, [] => none
  | fuel + 1, c :: rest =>
    if c = '"' then some ([], rest)
    else if c = '\\' then
      match rest with
      | [] => none
      | e :: rest2 =>
        let dec : Option (Char × Str) :=
          if e = '"' then some ('"', rest2)
          else if e = '\\' then some ('\\', rest2)
          else if e = '/' then some ('/', rest2)
          else if e = 'n' then some ('\n', rest2)
          else if e = 't' then some ('\t', rest2)
          else if e = 'r' then some ('\r', rest2)
          else if e = 'b' then some ('\x08', rest2)
          else if e = 'f' then some ('\x0c', rest2)
          else if e = 'u' then
            match rest2 with
            | h1 :: h2 :: h3 :: h4 :: rest3 =>
              match hexDigitVal h1, hexDigitVal h2, hexDigitVal h3, hexDigitVal h4 with
              | some a, some b, some c2, some d =>
                some (Char.ofNat (((a * 16 + b) * 16 + c2) * 16 + d), rest3)
              | _, _, _, _ => none
            | _ => none
          else none
        match dec with
        | none => none
        | some (ch, rest3) =>
          (parseJsonStringGo fuel rest3).map (fun p => (ch :: p.1, p.2))
    else if c.toNat < 32 then none
    else (parseJsonStringGo fuel rest).map (fun p => (c :: p.1, p.2))

/-- A JSON number token: optional sign, integer part without leading zeros,
optional fraction and exponent.  Returns the lexeme and the remainder. -/
def parseJsonNumber (s : Str) : Option (Str × Str) :=
  let (neg, s1) : Str × Str := match s with | '-' :: r => (['-'], r) | _ => ([], s)
  let intPart := s1.takeWhile Char.isDigit
  let rest1 := s1.dropWhile Char.isDigit
  if intPart = [] then none
  else if 1 < intPart.length ∧ intPart.head? = some '0' then none
  else
    let (fracPart, rest2) : Str × Str :=
      match rest1 with
      | '.' :: r =>
        let ds := r.takeWhile Char.isDigit
        if ds = [] then ([], rest1) else ('.' :: ds, r.dropWhile Char.isDigit)
      | _ => ([], rest1)
    let (expPart, rest3) : Str × Str :=
      match rest2 with
      | e :: r =>
        if e = 'e' ∨ e = 'E' then
          let (sgn, r2) : Str × Str :=
            match r with
            | '+' :: r2 => (['+'], r2)
            | '-' :: r2 => (['-'], r2)
            | _ => ([], r)
          let ds := r2.takeWhile Char.isDigit
          if ds = [] then ([], rest2) else (e :: (sgn ++ ds), r2.dropWhile Char.isDigit)
        else ([], rest2)
      | _ => ([], rest2)
    some (neg ++ intPart ++ fracPart ++ expPart, rest3)

/-- Insertion into an assoc list with Python `dict` semantics: a duplicate key
keeps its original position and takes the later value. -/
def dictInsert (kvs : List (Str × Json)) (k : Str) (v : Json) : List (Str × Json) :=
  match kvs with
  | [] => [(k, v)]
  | (k0, v0) :: rest => if k0 = k then (k0, v) :: rest else (k0, v0) :: dictInsert rest k v

/-- Parser modes: a value, the items of an array being accumulated, or the
members of an object being accumulated. -/
inductive PMode where
  | value
  | arrItems (acc : List Json)
  | objMembers (acc : List (Str × Json))

/-- Recursive-descent JSON parsing, fuel-structural.  In `arrItems` and
`objMembers` modes the input starts just past the opening bracket (or past a
separating comma), whitespace already skipped. -/
def parseGo : Nat → PMode → Str → Option (Json × Str)
  | 0, _, _ => none
  | fuel + 1, PMode.value, s =>
    match skipJsonWs s with
    | [] => none
    | c :: rest =>
      if c = '"' then
        (parseJsonStringGo (rest.length + 1) rest).map (fun p => (Json.str p.1, p.2))
      else if c = '\x7b' then
        match skipJsonWs rest with
        | '\x7d' :: r2 => some (Json.obj [], r2)
        | s2 => parseGo fuel (PMode.objMembers []) s2
      else if c = '[' then
        match skipJsonWs rest with
        | ']' :: r2 => some (Json.arr [], r2)
        | s2 => parseGo fuel (PMode.arrItems []) s2
      else if ("true".data).isPrefixOf (c :: rest) then
        some (Json.bool true, (c :: rest).drop 4)
      else if ("false".data).isPrefixOf (c :: rest) then
        some (Json.bool false, (c :: rest).drop 5)
      else if ("null".data).isPrefixOf (c :: rest) then
        some (Json.null, (c :: rest).drop 4)
      else
        (parseJsonNumber (c :: rest)).map (fun p => (Json.num p.1, p.2))
  | fuel + 1, PMode.arrItems acc, s =>
    match parseGo fuel PMode.value s with
    | none => none
    | some (v, rest) =>
      match skipJsonWs rest with
      | ',' :: r2 => parseGo fuel (PMode.arrItems (acc ++ [v])) r2
      | ']' :: r2 => some (Json.arr (acc ++ [v]), r2)
      | _ => none
  | fuel + 1, PMode.objMembers acc, s =>
    match s with
    | '"' :: rest =>
      match parseJsonStringGo (rest.length + 1) rest with
      | none => none
      | some (k, r2) =>
        match skipJsonWs r2 with
        | ':' :: r3 =>
          match parseGo fuel PMode.value r3 with
          | none => none
          | some (v, r4) =>
            match skipJsonWs r4 with
            | ',' :: r5 => parseGo fuel (PMode.objMembers (dictInsert acc k v)) (skipJsonWs r5)
            | '\x7d' :: r5 => some (Json.obj (dictInsert acc k v), r5)
            | _ => none
        | _ => none
    | _ => none

/-- `json.loads`: parse one value and require only whitespace after it. -/
def jsonLoads (s : Str) : Option Json :=
  match parseGo (4 * s.length + 16) PMode.value s with
  | some (v, rest) => if skipJsonWs rest = [] then some v else none
  | none => none

mutual

/-- Python `repr` for `json.loads` values (single-quoted strings; quote and
backslash escaping inside strings is not modelled — no claim formats a string
containing quotes through `repr`). -/
def pyRepr : Json → Str
  | Json.null => "None".data
  | Json.bool true => "True".data
  | Json.bool false => "False".data
  | Json.num l => l
  | Json.str s => '\x27' :: (s ++ ['\x27'])
  | Json.arr xs => '[' :: (pyJoin ", ".data (pyReprList xs) ++ [']'])
  | Json.obj kvs => '\x7b' :: (pyJoin ", ".data (pyReprPairs kvs) ++ ['\x7d'])

def pyReprList : List Json → List Str
  | [] => []
  | x :: xs => pyRepr x :: pyReprList xs

def pyReprPairs : List (Str × Json) → List Str
  | [] => []
  | kv :: kvs => (('\x27' :: (kv.1 ++ ['\x27'])) ++ ": ".data ++ pyRepr kv.2) :: pyReprPairs kvs

end

/-- Python `str()` as applied by an f-string: a string is unchanged, anything
else renders as its `repr`-style form. -/
def pyStr (j : Json) : Str :=
  match j with
  | Json.str s => s
  | j => pyRepr j

/-- The two exception classes the summarizer distinguishes in the JSON-to-Slack
formatting: `TypeError` (caught next to `JSONDecodeError`/`KeyError`, yielding
the raw-text fallback) and `AttributeError` (escapes to the outer handler,
yielding the PR-count fallback). -/
inductive PyErr where
  | typeError
  | attributeError
deriving DecidableEq

/-- Assoc-list lookup with default, Python `dict.get(k, default)` (keys are
unique because `dictInsert` replaces). -/
def dictGet (kvs : List (Str × Json)) (k : Str) (dflt : Json) : Json :=
  match kvs with
  | [] => dflt
  | (k0, v0) :: rest => if k0 = k then v0 else dictGet rest k dflt

/-- Python `obj.get(k, default)`: only dictionaries have `.get`; on any other
value it raises `AttributeError`. -/
def pyGet (j : Json) (k : Str) (dflt : Json) : Except PyErr Json :=
  match j with
  | Json.obj kvs => Except.ok (dictGet kvs k dflt)
  | _ => Except.error PyErr.attributeError

/-- Python iteration (`for x in j`): lists yield elements, strings yield
one-character strings, dicts yield keys; other values raise `TypeError`. -/
def pyIter (j : Json) : Except PyErr (List Json) :=
  match j with
  | Json.arr xs => Except.ok xs
  | Json.str s => Except.ok (s.map (fun c => Json.str [c]))
  | Json.obj kvs => Except.ok (kvs.map (fun kv => Json.str kv.1))
  | _ => Except.error PyErr.typeError

/-- Whether a JSON number lexeme denotes zero (any mantissa of all-zero
digits, whatever the exponent). -/
def numIsZero (lexeme : Str) : Bool :=
  ((lexeme.takeWhile (fun c => ¬ (c = 'e' ∨ c = 'E'))).filter Char.isDigit).all
    (fun c => c = '0')

/-- Python truthiness of a `json.loads` value. -/
def pyTruthy : Json → Bool
  | Json.null => false
  | Json.bool b => b
  | Json.num l => ¬ numIsZero l
  | Json.str s => !s.isEmpty
  | Json.arr xs => !xs.isEmpty
  | Json.obj kvs => !kvs.isEmpty

/-- One item line of the Slack-formatted summary: `"  â—¦ {item}\n"`. -/
def formatOneItem (item : Json) : Str :=
  "  ".data ++ subBulletStr ++ " ".data ++ pyStr item ++ "\n".data

/-- The category loop of `summarize_with_ai`: for each category read `name` and
`items`; when `items` is truthy append the category header line and one line
per item. -/
def formatCatsGo : List Json → Str → Except PyErr Str
  | [], acc => Except.ok acc
  | category :: rest, acc =>
    match pyGet category "name".data (Json.str []) with
    | Except.error e => Except.error e
    | Except.ok nameJ =>
      match pyGet category "items".data (Json.arr []) with
      | Except.error e => Except.error e
      | Except.ok items =>
        if pyTruthy items then
          match pyIter items with
          | Except.error e => Except.error e
          | Except.ok xs =>
            formatCatsGo rest
              (acc ++ "\n".data ++ bulletStr ++ " *".data ++ pyStr nameJ ++ "*:\n".data ++
                List.flatten (xs.map formatOneItem))
        else formatCatsGo rest acc

/-- The JSON-to-Slack formatting step of `summarize_with_ai`: header line with
the repository name, the category/item lines, and the closing divider. -/
def formatSlackSummary (repo_name : Str) (data : Json) : Except PyErr Str :=
  match pyGet data "categories".data (Json.arr []) with
  | Except.error e => Except.error e
  | Except.ok cats =>
    match pyIter cats with
    | Except.error e => Except.error e
    | Except.ok catList =>
      match formatCatsGo catList ("*".data ++ repo_name ++ "*\n".data) with
      | Except.error e => Except.error e
      | Except.ok s => Except.ok (s ++ "\n".data ++ divider50 ++ "\n".data)

/-- `re.sub(r'^json\s*', '', s)`: drop a leading `json` tag and the whitespace
run after it. -/
def subLeadingJson (s : Str) : Str :=
  if ("json".data).isPrefixOf s then (s.drop 4).dropWhile isPySpace else s

/-- `re.sub(r'^```json\s*', '', s)`. -/
def subLeadingFence (s : Str) : Str :=
  if ("```json".data).isPrefixOf s then (s.drop 7).dropWhile isPySpace else s

/-- `re.sub(r'\s*```$', '', s)`: drop a trailing code-fence and the whitespace
run before it (at this point in the script the input has already been
stripped, so `$` is exactly the end of the string). -/
def subTrailingFence (s : Str) : Str :=
  if ("```".data).isSuffixOf s then pyRStrip (s.take (s.length - 3)) else s

/-- The fixed system prompt (`release_notes_prompt`), verbatim from the script
including its double-encoded arrows. -/
def release_notes_prompt : Str :=
  "\nYou are an expert technical writer creating user-facing release notes. Your task is to transform pull request data int".data ++
    "o clear, benefit-focused release notes.\n\nCRITICAL RULES:\n1. NEVER list individual PR numbers or titles\n2. NEVER incl".data ++
    "ude repository names in the output (they will be added automatically)\n3. SYNTHESIZE all changes into coherent features ".data ++
    "and improvements\n4. Focus on WHY changes matter to users/developers, but include relevant technical context\n5. Group r".data ++
    "elated technical changes together\n\nINPUT: You\x27ll receive PR titles, descriptions, and commit messages for multiple ".data ++
    "repositories.\n\nOUTPUT FORMAT (JSON):\n```json\n\x7b\n  \"categories\": [\n    \x7b\n      \"name\": \"Feature Category".data ++
    "\",\n      \"items\": [\n        \"Specific improvement with clear benefit and technical context\",\n        \"Another i".data ++
    "mprovement with impact described\"\n      ]\n    \x7d,\n    \x7b\n      \"name\": \"Bug Fixes\", \n      \"items\": [\n ".data ++
    "       \"Fixed [issue] that [what it was causing for users/developers]\"\n      ]\n    \x7d,\n    \x7b\n      \"name\": ".data ++
    "\"Technical Improvements\",\n      \"items\": [\n        \"[Technical enhancement] that [benefit/impact]\"\n      ]\n   ".data ++
    " \x7d\n  ]\n\x7d\n```\n\nIMPORTANT: Return ONLY valid JSON, no other text or formatting.\n\nTRANSFORMATION EXAMPLES:\n- ".data ++
    "\"chore/add_user_settings_field\" \u00E2\u2020\u2019 \"Added new user settings field for improved customization options\"".data ++
    "\n- \"fix-dashboard-loading-performance\" \u00E2\u2020\u2019 \"Optimized dashboard queries for improved loading performa".data ++
    "nce\"\n- \"upgrade-ai-model\" \u00E2\u2020\u2019 \"Upgraded AI model for improved response accuracy and context understa".data ++
    "nding\"\n- \"enhance-api-integration\" \u00E2\u2020\u2019 \"Enhanced API integration with webhook support and improved e".data ++
    "rror handling\"\n- \"db-optimization\" \u00E2\u2020\u2019 \"Database query optimization for improved API response times\"".data ++
    "\n- \"auth-refactor\" \u00E2\u2020\u2019 \"Refactored authentication system to support OAuth2 and improve security\"\n\n".data ++
    "GUIDELINES:\n- Extract the actual feature from vague PR titles\n- Combine related PRs into single, comprehensive bullet ".data ++
    "points\n- Include relevant technical details that developers would care about\n- Prioritize changes by impact (user-faci".data ++
    "ng first, then technical improvements)\n- Use active voice and specific benefits\n- For technical improvements, explain ".data ++
    "both the technical change and its benefit\n- Skip truly internal-only changes with no impact\n- NEVER include specific p".data ++
    "erformance claims (like \"5x faster\", \"40% improvement\") unless explicitly proven in the PR\n- Use general terms like".data ++
    " \"improved performance\", \"optimized\", \"enhanced\" instead of specific metrics\n- Focus on what was changed rather t".data ++
    "han unproven performance claims\n\nAnalyze all PRs holistically and create a cohesive narrative of improvements, balanci".data ++
    "ng user benefits with technical context.\n".data

/-- The per-repository user prompt of `summarize_with_ai`. -/
def user_prompt (repo_name prs_text : Str) : Str :=
  "Repository: ".data ++ repo_name ++ "\n\nPull Requests to analyze:\n".data ++ prs_text ++
    "\n\nCreate user-facing release notes following the format and guidelines above.".data

/-- The early-return sentence for an empty period. -/
def noChangesSummary (repo_name : Str) : Str :=
  "*".data ++ repo_name ++ "*: No changes in the specified time period.".data

/-- The raw-text fallback used when the reply does not parse as the expected
structure. -/
def rawFallbackSummary (repo_name summary_json : Str) : Str :=
  "*".data ++ repo_name ++ "*:\n\n".data ++ summary_json

/-- The count-only fallback of the outer exception handler:
`len(prs_text.split('PR #')) - 1` pull requests merged. -/
def countFallbackSummary (repo_name prs_text : Str) : Str :=
  "*".data ++ repo_name ++ "*: ".data ++
    natStr ((pySplit prs_text "PR #".data).length - 1) ++
    " pull requests merged. See individual PRs for details.".data

/-- `ReleaseNotesGenerator.summarize_with_ai`.  `generate_summary` is the
Provider Adapter oracle (`.error e` = the provider call raised).  The second
component counts how many times the oracle was invoked.  The function is
total: every exception of the original is caught and mapped to a fallback
string, mirroring the script's inner `(JSONDecodeError, KeyError, TypeError)`
handler (raw-text fallback) and outer `Exception` handler (count fallback,
also reached by an `AttributeError` escaping the inner handler). -/
def summarize_with_ai (generate_summary : Str → Str → Except Str Str)
    (repo_name prs_text : Str) : Str × Nat :=
  if prs_text = [] ∨ prs_text = noPRsSentinel then (noChangesSummary repo_name, 0)
  else
    match generate_summary release_notes_prompt (user_prompt repo_name prs_text) with
    | Except.error _ => (countFallbackSummary repo_name prs_text, 1)
    | Except.ok summary_json =>
      let cleaned_json := subTrailingFence (subLeadingFence (subLeadingJson (pyStrip summary_json)))
      match jsonLoads (pyStrip cleaned_json) with
      | none => (rawFallbackSummary repo_name summary_json, 1)
      | some data =>
        match formatSlackSummary repo_name data with
        | Except.ok s => (s, 1)
        | Except.error PyErr.typeError => (rawFallbackSummary repo_name summary_json, 1)
        | Except.error PyErr.attributeError => (countFallbackSummary repo_name prs_text, 1)

/-- Slack message blocks (`ChatMessageBlock`): header, divider, or mrkdwn
section. -/
inductive Block where
  | header (text : Str)
  | divider
  | section (text : Str)
deriving DecidableEq

/-- The accessibility plain-text version of the message:
`message.replace('*','').replace('â€¢','-').replace('â—¦','  -').replace('â”€','-')`. -/
def text_version (message : Str) : Str :=
  pyReplace (pyReplace (pyReplace (pyReplace message "*".data []) bulletStr "-".data)
    subBulletStr "  -".data) boxStr "-".data

/-- The overall header text, with the optional date range appended. -/
def header_text (date_range : Option Str) : Str :=
  match date_range with
  | some d => newspaperStr ++ " Release Notes".data ++ " (".data ++ d ++ ")".data
  | none => newspaperStr ++ " Release Notes".data

/-- The blocks one section of the split message contributes: after stripping,
a non-empty section whose first line both starts and ends with `'*'` yields a
header block (the first line with its `'*'`s stripped), a section block when
the remaining content is non-empty, and a divider block; any other section
yields nothing. -/
def sectionBlocks (sec : Str) : List Block :=
  let s := pyStrip sec
  if s.isEmpty then []
  else
    match pySplit s "\n".data with
    | [] => []
    | l0 :: restLines =>
      if ("*".data).isPrefixOf l0 ∧ ("*".data).isSuffixOf l0 then
        let repo_name := stripStars l0
        let content := pyStrip (pyJoin "\n".data restLines)
        [Block.header repo_name] ++
          (if content.isEmpty then [] else [Block.section content]) ++
          [Block.divider]
      else []

/-- The ordered block sequence `post_to_slack` sends: overall header and
divider, then the blocks of each section of the message split on the
divider marker. -/
def post_to_slack_blocks (message : Str) (date_range : Option Str) : List Block :=
  [Block.header (header_text date_range), Block.divider] ++
    (pySplit message divider50).flatMap sectionBlocks

/-- `ReleaseNotesGenerator.post_to_slack`: build the plain-text version and the
block sequence and send them through the chat oracle; an API error is logged
and re-raised, so the oracle's outcome is the function's outcome. -/
def post_to_slack (chat_postMessage : Str → List Block → Except Str Unit)
    (message : Str) (date_range : Option Str) : Except Str Unit :=
  chat_postMessage (text_version message) (post_to_slack_blocks message date_range)

/-- The oracles of one run.  `get_merged_prs` is the outcome of the GitHub
query of `ReleaseNotesGenerator.get_merged_prs` (whose body only reshapes the
host's responses and re-raises any exception), `generate_summary` the Provider
Adapter call, `chat_postMessage` the Slack send, and `date_range` the
display string computed from the wall clock. -/
structure Env where
  get_merged_prs : Str → Except Str (List PullRequest)
  generate_summary : Str → Str → Except Str Str
  chat_postMessage : Str → List Block → Except Str Unit
  date_range : Str

/-- The error sentence recorded when one repository's processing raises. -/
def errorSummary (repo e : Str) : Str :=
  "*".data ++ repo ++ "*: Error processing repository - ".data ++ e

/-- The body of the per-repository `try`: fetch the PRs; an empty list yields
the no-changes sentence, otherwise format and summarize (the summarizer is
total, so the only exception source is the fetch). -/
def repoSummary (env : Env) (repo : Str) : Except Str Str :=
  match env.get_merged_prs repo with
  | Except.error e => Except.error e
  | Except.ok prs =>
    if prs = [] then Except.ok (noChangesSummary repo)
    else Except.ok (summarize_with_ai env.generate_summary repo (format_prs_for_summary prs)).1

/-- The repository loop of `generate_release_notes`: strip each name, skip
empty ones, and on an exception append the inline error sentence instead of
aborting. -/
def processRepos (env : Env) (repos : List Str) : List Str :=
  repos.foldl
    (fun acc r =>
      let repo := pyStrip r
      if repo = [] then acc
      else
        match repoSummary env repo with
        | Except.ok s => acc ++ [s]
        | Except.error e => acc ++ [errorSummary repo e])
    []

/-- Observable side effects of the tail of `generate_release_notes`:
the Slack post attempt and the write of `generated_message.txt`. -/
inductive Event where
  | publishAttempt (message : Str)
  | artifactWrite (message : Str)
deriving DecidableEq

/-- `ReleaseNotesGenerator.generate_release_notes`: collect the per-repository
summaries, join them with blank lines, post to Slack, and only then write the
joined text to the artifact file.  The result is the run's outcome paired with
the ordered side effects that occurred; a Slack failure re-raises, so the
artifact write is never reached on it. -/
def generate_release_notes (env : Env) (repos : List Str) : Except Str Unit × List Event :=
  if repos = [] then (Except.ok (), [])
  else
    let all_summaries := processRepos env repos
    if all_summaries = [] then (Except.ok (), [])
    else
      let full_message := pyJoin "\n\n".data all_summaries
      match post_to_slack env.chat_postMessage full_message (some env.date_range) with
      | Except.error e => (Except.error e, [Event.publishAttempt full_message])
      | Except.ok _ =>
        (Except.ok (), [Event.publishAttempt full_message, Event.artifactWrite full_message])

/-- Oracles for the concrete witness runs: fetching `repoA` raises, fetching
any other repository returns one merged PR. -/
def witnessEnvC2 : Env where
  get_merged_prs := fun r =>
    if r = "repoA".data then Except.error "fetch failed".data
    else Except.ok [⟨"Fix bug".data, [], 7, [], 0, [], "repoB".data⟩]
  generate_summary := fun _ _ => Except.error "provider down".data
  chat_postMessage := fun _ _ => Except.ok ()
  date_range := "01 Oct 2025 - 08 Oct 2025".data

/-- Oracles for the C1 runs: the GitHub fetch succeeds with no PRs, the Slack
post is rejected by the platform. -/
def cexEnvC1 : Env where
  get_merged_prs := fun _ => Except.ok []
  generate_summary := fun _ _ => Except.error "unused".data
  chat_postMessage := fun _ _ => Except.error "channel_not_found".data
  date_range := "01 Oct 2025 - 08 Oct 2025".data

/-- Recognizer for header blocks. -/
def isHeaderBlock : Block → Bool
  | Block.header _ => true
  | _ => false

/-- Recognizer for divider blocks. -/
def isDividerBlock : Block → Bool
  | Block.divider => true
  | _ => false

/-- Whether the first line of `t` (Python `t.split('\n')[0]`) both starts and
ends with the emphasis marker `'*'`. -/
def wrappedFirstLine (t : Str) : Bool :=
  match pySplit t "\n".data with
  | [] => false
  | l0 :: _ => ("*".data).isPrefixOf l0 && ("*".data).isSuffixOf l0

/-- Whether a section of the split message contributes blocks: non-empty after
stripping, with an emphasis-wrapped first line. -/
def sectionQualifies (sec : Str) : Bool :=
  !(pyStrip sec).isEmpty && wrappedFirstLine (pyStrip sec)

/-- The structured reply of the round-trip claim:
`\x7b"categories":[\x7b"name":"Features","items":["Added X"]\x7d]\x7d`. -/
def c4BareReply : Str :=
  "\x7b\x22categories\x22:[\x7b\x22name\x22:\x22Features\x22,\x22items\x22:[\x22Added X\x22]\x7d]\x7d".data

/-- The same reply wrapped in a fenced code block with a language tag. -/
def c4FencedReply : Str := "```json\n".data ++ c4BareReply ++ "\n```".data

/-- The parsed form of `c4BareReply`. -/
def c4Data : Json :=
  Json.obj [("categories".data,
    Json.arr [Json.obj [("name".data, Json.str "Features".data),
                        ("items".data, Json.arr [Json.str "Added X".data])]])]

/-- Everything after the first newline of the summary the Summarizer formats
from `c4Data`: blank line, category line, item line, blank line, divider. -/
def c4Tail : Str :=
  "\nâ€¢ *Features*:\n  â—¦ Added X\n\n".data ++ divider50 ++ "\n".data

/-! ## General lemmas about the embedded string primitives -/

/-- The split worker ignores the exact fuel once it exceeds the input length. -/
theorem pySplitGo_fuel (sep : Str) :
    ∀ f1 : Nat, ∀ f2 : Nat, ∀ s : Str, s.length < f1 → s.length < f2 →
      pySplitGo sep f1 s = pySplitGo sep f2 s := by
  intro f1
  induction f1 with
  | zero => intro f2 s h1 _; exact absurd h1 (Nat.not_lt_zero _)
  | succ f1 ih =>
    intro f2 s h1 h2
    match f2, s with
    | 0, s => exact absurd h2 (Nat.not_lt_zero _)
    | f2 + 1, [] => rfl
    | f2 + 1, c :: rest =>
      simp only [pySplitGo]
      simp only [List.length_cons] at h1 h2
      by_cases h : sep ≠ [] ∧ sep.isPrefixOf (c :: rest)
      · rw [if_pos h, if_pos h]
        have hsep : 0 < sep.length := List.length_pos.mpr h.1
        have hlen : (List.drop sep.length (c :: rest)).length < f1 := by
          simp only [List.length_drop, List.length_cons]
          omega
        have hlen2 : (List.drop sep.length (c :: rest)).length < f2 := by
          simp only [List.length_drop, List.length_cons]
          omega
        rw [ih f2 _ hlen hlen2]
      · rw [if_neg h, if_neg h]
        rw [ih f2 rest (by omega) (by omega)]

/-- The split worker never returns an empty list of pieces. -/
theorem pySplitGo_ne_nil (sep : Str) (fuel : Nat) (s : Str) :
    pySplitGo sep fuel s ≠ [] := by
  match fuel, s with
  | 0, s => simp [pySplitGo]
  | fuel + 1, [] => simp [pySplitGo]
  | fuel + 1, c :: rest =>
    simp only [pySplitGo]
    by_cases h : sep ≠ [] ∧ sep.isPrefixOf (c :: rest)
    · rw [if_pos h]; simp
    · rw [if_neg h]
      cases pySplitGo sep fuel rest <;> simp

/-- Unfolding equation: splitting the empty string. -/
theorem pySplit_nil (sep : Str) : pySplit [] sep = [[]] := rfl

/-- Unfolding equation: a separator occurrence at the head starts a new piece. -/
theorem pySplit_cons_match (s sep : Str) (hsep : sep ≠ []) (hpre : sep.isPrefixOf s)
    (hs : s ≠ []) :
    pySplit s sep = [] :: pySplit (s.drop sep.length) sep := by
  match s with
  | [] => exact absurd rfl hs
  | c :: rest =>
    show pySplitGo sep (rest.length + 1 + 1) (c :: rest) = _
    rw [pySplitGo, if_pos ⟨hsep, hpre⟩]
    have hd1 : (List.drop sep.length (c :: rest)).length < rest.length + 1 := by
      have := List.length_pos.mpr hsep
      simp only [List.length_drop, List.length_cons]; omega
    rw [pySplitGo_fuel sep (rest.length + 1) ((List.drop sep.length (c :: rest)).length + 1)
      _ hd1 (Nat.lt_succ_self _)]
    rfl

/-- Unfolding equation: no separator occurrence at the head. -/
theorem pySplit_cons_nomatch (c : Char) (rest sep : Str)
    (h : ¬(sep ≠ [] ∧ sep.isPrefixOf (c :: rest))) :
    pySplit (c :: rest) sep =
      match pySplit rest sep with
      | [] => [[c]]
      | p :: ps => (c :: p) :: ps := by
  show pySplitGo sep (rest.length + 1 + 1) (c :: rest) = _
  rw [pySplitGo, if_neg h]
  rfl

/-- Piece count and occurrence count advance in lockstep. -/
theorem pySplitGo_length (sep : Str) :
    ∀ fuel : Nat, ∀ s : Str,
      (pySplitGo sep fuel s).length = countOccGo sep fuel s + 1 := by
  intro fuel
  induction fuel with
  | zero => intro s; rfl
  | succ fuel ih =>
    intro s
    match s with
    | [] => rfl
    | c :: rest =>
      simp only [pySplitGo, countOccGo]
      by_cases h : sep ≠ [] ∧ sep.isPrefixOf (c :: rest)
      · rw [if_pos h, if_pos h]
        simp [ih]
      · rw [if_neg h, if_neg h]
        have hne := pySplitGo_ne_nil sep fuel rest
        cases hgo : pySplitGo sep fuel rest with
        | nil => exact absurd hgo hne
        | cons p ps =>
          have := ih rest
          rw [hgo] at this
          simpa using this

/-- `len(s.split(sep)) - 1` is the number of (non-overlapping) occurrences of
`sep` in `s`. -/
theorem pySplit_length_sub_one (s sep : Str) :
    (pySplit s sep).length - 1 = countOcc s sep := by
  rw [pySplit, countOcc, pySplitGo_length]
  omega

/-- Rejoining the split pieces with the separator restores the string. -/
theorem pyJoin_pySplitGo (sep : Str) :
    ∀ fuel : Nat, ∀ s : Str, s.length < fuel →
      pyJoin sep (pySplitGo sep fuel s) = s := by
  intro fuel
  induction fuel with
  | zero => intro s h; exact absurd h (Nat.not_lt_zero _)
  | succ fuel ih =>
    intro s h
    match s with
    | [] => rfl
    | c :: rest =>
      simp only [pySplitGo]
      by_cases hm : sep ≠ [] ∧ sep.isPrefixOf (c :: rest)
      · rw [if_pos hm]
        have hdrop : (List.drop sep.length (c :: rest)).length < fuel := by
          have := List.length_pos.mpr hm.1
          simp only [List.length_drop, List.length_cons]
          simp only [List.length_cons] at h
          omega
        have hjoin := ih _ hdrop
        cases hgo : pySplitGo sep fuel (List.drop sep.length (c :: rest)) with
        | nil => exact absurd hgo (pySplitGo_ne_nil sep fuel _)
        | cons p ps =>
          rw [hgo] at hjoin
          have hpre : sep ++ List.drop sep.length (c :: rest) = c :: rest := by
            have := List.prefix_iff_eq_append.mp (List.isPrefixOf_iff_prefix.mp hm.2)
            exact this
          calc pyJoin sep ([] :: p :: ps)
              = sep ++ pyJoin sep (p :: ps) := by simp [pyJoin]
            _ = sep ++ List.drop sep.length (c :: rest) := by rw [hjoin]
            _ = c :: rest := hpre
      · rw [if_neg hm]
        have hrest : rest.length < fuel := by
          simp only [List.length_cons] at h; omega
        have hjoin := ih rest hrest
        cases hgo : pySplitGo sep fuel rest with
        | nil => exact absurd hgo (pySplitGo_ne_nil sep fuel rest)
        | cons p ps =>
          rw [hgo] at hjoin
          cases ps with
          | nil => simpa [pyJoin] using congrArg (c :: ·) hjoin
          | cons q qs =>
            simp only [pyJoin] at hjoin ⊢
            rw [← hjoin]
            simp

/-! ## Claim theorems -/

/-- C10: the Formatter is a deterministic function of its input — calling
`format_prs_for_summary` twice on the same PR sequence yields identical
text. -/
theorem C10_formatter_deterministic (prs : List PullRequest) :
    format_prs_for_summary prs = format_prs_for_summary prs := rfl

/-- Accumulator-generalized characterization of the `filter_prs` loop. -/
theorem filter_prs_foldl (prs : List PullRequest) :
    ∀ acc : FilterResult,
      prs.foldl
        (fun acc pr =>
          if deps_match pr.title then
            { acc with deps := acc.deps ++ [pr] }
          else
            { acc with regular := acc.regular ++ [pr] })
        acc =
      ⟨acc.regular ++ prs.filter (fun pr => !deps_match pr.title),
       acc.deps ++ prs.filter (fun pr => deps_match pr.title)⟩ := by
  induction prs with
  | nil => intro acc; simp
  | cons pr rest ih =>
    intro acc
    by_cases h : deps_match pr.title
    · simp only [List.foldl_cons, if_pos h, ih, List.filter_cons]
      simp [h]
    · simp only [List.foldl_cons, if_neg h, ih, List.filter_cons]
      simp [h]

/-- C7: `filter_prs` partitions its input: the `deps` group is exactly the PRs
whose title matches the case-insensitive `chore(deps)` prefix pattern, the
`regular` group exactly the others, and every input PR lands in exactly one of
the two groups. -/
theorem C7_filter_partitions (prs : List PullRequest) :
    (filter_prs prs).deps = prs.filter (fun pr => deps_match pr.title) ∧
    (filter_prs prs).regular = prs.filter (fun pr => !deps_match pr.title) ∧
    (∀ pr, pr ∈ (filter_prs prs).deps ↔ pr ∈ prs ∧ deps_match pr.title = true) ∧
    (∀ pr, pr ∈ (filter_prs prs).regular ↔ pr ∈ prs ∧ deps_match pr.title = false) := by
  have h := filter_prs_foldl prs ⟨[], []⟩
  refine ⟨?_, ?_, ?_, ?_⟩
  · rw [filter_prs, h]; simp
  · rw [filter_prs, h]; simp
  · intro pr
    rw [filter_prs, h]
    simp [List.mem_filter]
  · intro pr
    rw [filter_prs, h]
    simp [List.mem_filter]

/-- C6: on an empty PR sequence the Formatter returns exactly the sentinel
`"No pull requests found."`, and the Summarizer applied to that sentinel
returns the fixed no-changes sentence containing the repository name with the
Provider Adapter invoked zero times (second component of the result). -/
theorem C6_empty_prs_sentinel (generate_summary : Str → Str → Except Str Str)
    (repo_name : Str) :
    format_prs_for_summary [] = "No pull requests found.".data ∧
    summarize_with_ai generate_summary repo_name (format_prs_for_summary []) =
      ("*".data ++ repo_name ++ "*: No changes in the specified time period.".data, 0) := by
  constructor
  · rfl
  · have hs : format_prs_for_summary [] = noPRsSentinel := rfl
    rw [summarize_with_ai, if_pos (Or.inr hs)]
    rfl

/-- C5: whenever the provider reply does not parse as JSON (after the
code-fence cleanup), the Summarizer returns the raw reply prefixed by the
repository name; the function is total, so no exception reaches the caller. -/
theorem C5_malformed_reply_raw_fallback (generate_summary : Str → Str → Except Str Str)
    (repo_name prs_text reply : Str)
    (hne : prs_text ≠ [])
    (hns : prs_text ≠ noPRsSentinel)
    (hp : generate_summary release_notes_prompt (user_prompt repo_name prs_text) =
      Except.ok reply)
    (hbad : jsonLoads
      (pyStrip (subTrailingFence (subLeadingFence (subLeadingJson (pyStrip reply))))) = none) :
    summarize_with_ai generate_summary repo_name prs_text =
      ("*".data ++ repo_name ++ "*:\n\n".data ++ reply, 1) := by
  rw [summarize_with_ai, if_neg (by simp [hne, hns]), hp]
  simp only [hbad]
  rfl

/-- Witness for C5 at a concrete malformed reply. -/
theorem C5_witness :
    summarize_with_ai (fun _ _ => Except.ok "not json".data) "org/repo".data "PR #1: x".data =
      ("*".data ++ "org/repo".data ++ "*:\n\n".data ++ "not json".data, 1) :=
  C5_malformed_reply_raw_fallback (fun _ _ => Except.ok "not json".data)
    "org/repo".data "PR #1: x".data "not json".data
    (by decide) (by decide) rfl rfl

/-- C8: when the provider call raises, the Summarizer returns the synthesized
count-only sentence: the repository name followed by the number of `PR #`
markers in the input text (the sub-one split length equals the occurrence
count by `pySplit_length_sub_one`); the function is total, so nothing
propagates. -/
theorem C8_provider_failure_count_fallback (generate_summary : Str → Str → Except Str Str)
    (repo_name prs_text e : Str)
    (hne : prs_text ≠ [])
    (hns : prs_text ≠ noPRsSentinel)
    (hp : generate_summary release_notes_prompt (user_prompt repo_name prs_text) =
      Except.error e) :
    summarize_with_ai generate_summary repo_name prs_text =
      ("*".data ++ repo_name ++ "*: ".data ++ natStr (countOcc prs_text "PR #".data) ++
        " pull requests merged. See individual PRs for details.".data, 1) := by
  rw [summarize_with_ai, if_neg (by simp [hne, hns]), hp, countFallbackSummary,
    pySplit_length_sub_one]

/-- Witness for C8: two `PR #` markers yield the count sentence with 2. -/
theorem C8_witness :
    summarize_with_ai (fun _ _ => Except.error "boom".data) "org/repo".data
        "PR #1: x\n\nPR #2: y".data =
      ("*".data ++ "org/repo".data ++ "*: ".data ++
        natStr (countOcc "PR #1: x\n\nPR #2: y".data "PR #".data) ++
        " pull requests merged. See individual PRs for details.".data, 1) :=
  C8_provider_failure_count_fallback (fun _ _ => Except.error "boom".data)
    "org/repo".data "PR #1: x\n\nPR #2: y".data "boom".data
    (by decide) (by decide) rfl

/-- C2: with repositories `[A, B]` where fetching `A` raises and fetching `B`
succeeds, the repository loop produces exactly two summary entries — the
inline error sentence for `A` (which contains `A`'s name as an infix) followed
by `B`'s normal summary — and the loop itself never aborts (it is a total
function returning both entries). -/
theorem C2_partial_failure_isolation (env : Env) (A B m : Str)
    (prsB : List PullRequest)
    (hA : pyStrip A ≠ [])
    (hB : pyStrip B ≠ [])
    (hfa : env.get_merged_prs (pyStrip A) = Except.error m)
    (hfb : env.get_merged_prs (pyStrip B) = Except.ok prsB) :
    ∃ sB, repoSummary env (pyStrip B) = Except.ok sB ∧
      processRepos env [A, B] = [errorSummary (pyStrip A) m, sB] ∧
      (pyStrip A) <:+: errorSummary (pyStrip A) m := by
  have hra : repoSummary env (pyStrip A) = Except.error m := by
    rw [repoSummary, hfa]
  have hrb : ∃ sB, repoSummary env (pyStrip B) = Except.ok sB := by
    rw [repoSummary, hfb]
    by_cases h : prsB = []
    · exact ⟨noChangesSummary (pyStrip B), by simp [h]⟩
    · exact ⟨(summarize_with_ai env.generate_summary (pyStrip B)
        (format_prs_for_summary prsB)).1, by simp [h]⟩
  obtain ⟨sB, hsB⟩ := hrb
  refine ⟨sB, hsB, ?_, ?_⟩
  · simp only [processRepos, List.foldl_cons, List.foldl_nil]
    rw [if_neg hA, hra, if_neg hB, hsB]
    simp
  · exact ⟨"*".data, "*: Error processing repository - ".data ++ m, by simp [errorSummary]⟩

/-- Witness for C2 on concrete oracles and repositories. -/
theorem C2_witness :
    ∃ sB, repoSummary witnessEnvC2 (pyStrip "repoB".data) = Except.ok sB ∧
      processRepos witnessEnvC2 ["repoA".data, "repoB".data] =
        [errorSummary (pyStrip "repoA".data) "fetch failed".data, sB] ∧
      (pyStrip "repoA".data) <:+: errorSummary (pyStrip "repoA".data) "fetch failed".data :=
  C2_partial_failure_isolation witnessEnvC2 "repoA".data "repoB".data "fetch failed".data
    [⟨"Fix bug".data, [], 7, [], 0, [], "repoB".data⟩]
    (by decide) (by decide) rfl rfl

/-- C1 (amended): when the run fails, the only side effect that has occurred
is the Slack publish attempt — in particular the artifact file
`generated_message.txt` has NOT been written, because the script writes it
only after `post_to_slack` returns successfully. -/
theorem C1_publish_failure_means_no_artifact (env : Env) (repos : List Str) (e : Str)
    (h : (generate_release_notes env repos).1 = Except.error e) :
    (generate_release_notes env repos).2 =
      [Event.publishAttempt (pyJoin "\n\n".data (processRepos env repos))] ∧
    ∀ t, Event.artifactWrite t ∉ (generate_release_notes env repos).2 := by
  rw [generate_release_notes] at h ⊢
  by_cases h0 : repos = []
  · rw [if_pos h0] at h; exact absurd h (by simp)
  · rw [if_neg h0] at h ⊢
    by_cases h1 : processRepos env repos = []
    · rw [if_pos h1] at h; exact absurd h (by simp)
    · rw [if_neg h1] at h ⊢
      cases hpost : post_to_slack env.chat_postMessage
          (pyJoin "\n\n".data (processRepos env repos)) (some env.date_range) with
      | error e2 => simp [hpost]
      | ok u =>
        simp only [hpost] at h
        exact absurd h (by simp)

/-- Counterexample to C1 as stated: on this concrete run the publish step is
reached and fails (the run's outcome is the re-raised Slack error), yet the
only event that occurred is the publish attempt — no
`Event.artifactWrite` precedes (or follows) the failure, contradicting the
claim that the artifact write is attempted before the failure surfaces. -/
theorem C1_counterexample :
    (generate_release_notes cexEnvC1 ["demo/repo".data]).1 =
      Except.error "channel_not_found".data ∧
    (generate_release_notes cexEnvC1 ["demo/repo".data]).2 =
      [Event.publishAttempt
        ("*demo/repo*: No changes in the specified time period.".data)] :=
  ⟨rfl, rfl⟩

/-- Witness for the amended C1 on the concrete failing run. -/
theorem C1_witness :
    (generate_release_notes cexEnvC1 ["demo/repo".data]).2 =
      [Event.publishAttempt (pyJoin "\n\n".data (processRepos cexEnvC1 ["demo/repo".data]))] ∧
    ∀ t, Event.artifactWrite t ∉ (generate_release_notes cexEnvC1 ["demo/repo".data]).2 :=
  C1_publish_failure_means_no_artifact cexEnvC1 ["demo/repo".data]
    "channel_not_found".data rfl

/-- Each section contributes exactly one header block when it qualifies, none
otherwise. -/
theorem sectionBlocks_count_header (sec : Str) :
    (sectionBlocks sec).countP isHeaderBlock = if sectionQualifies sec then 1 else 0 := by
  rw [sectionBlocks, sectionQualifies, wrappedFirstLine]
  by_cases hf : (pyStrip sec).isEmpty
  · simp [hf]
  · simp only [hf, Bool.not_false, Bool.true_and, if_false]
    cases hm : pySplit (pyStrip sec) "\n".data with
    | nil => simp
    | cons l0 restLines =>
      cases hp : List.isPrefixOf ['*'] l0 <;> cases hs : List.isSuffixOf ['*'] l0 <;>
        by_cases hc : (pyStrip (pyJoin "\n".data restLines)).isEmpty <;>
        simp [hp, hs, hc, List.countP_append, List.countP_cons, isHeaderBlock]

/-- Each section contributes exactly one divider block when it qualifies, none
otherwise. -/
theorem sectionBlocks_count_divider (sec : Str) :
    (sectionBlocks sec).countP isDividerBlock = if sectionQualifies sec then 1 else 0 := by
  rw [sectionBlocks, sectionQualifies, wrappedFirstLine]
  by_cases hf : (pyStrip sec).isEmpty
  · simp [hf]
  · simp only [hf, Bool.not_false, Bool.true_and, if_false]
    cases hm : pySplit (pyStrip sec) "\n".data with
    | nil => simp
    | cons l0 restLines =>
      cases hp : List.isPrefixOf ['*'] l0 <;> cases hs : List.isSuffixOf ['*'] l0 <;>
        by_cases hc : (pyStrip (pyJoin "\n".data restLines)).isEmpty <;>
        simp [hp, hs, hc, List.countP_append, List.countP_cons, isDividerBlock]

/-- Counting over the concatenated per-section blocks counts the qualifying
sections. -/
theorem countP_flatMap_sections (p : Block → Bool)
    (hcount : ∀ sec, (sectionBlocks sec).countP p = if sectionQualifies sec then 1 else 0) :
    ∀ secs : List Str,
      ((secs.flatMap sectionBlocks).countP p) = secs.countP sectionQualifies := by
  intro secs
  induction secs with
  | nil => rfl
  | cons sec rest ih =>
    rw [List.flatMap_cons, List.countP_append, hcount, ih, List.countP_cons]
    by_cases h : sectionQualifies sec
    · simp [h]
      omega
    · simp [h]

/-- C3: for a joined blob whose split yields exactly two repository sections
(two stripped-non-empty pieces, each with an emphasis-wrapped first line), the
Publisher's block sequence has `1 + 2` header blocks (overall title plus one
per section) and `2 + 1` divider blocks (one per section plus the one after
the title). -/
theorem C3_block_counts (m : Str) (dr : Option Str) (s1 s2 : Str)
    (hsecs : ((pySplit m divider50).map pyStrip).filter (fun t => !t.isEmpty) = [s1, s2])
    (h1 : wrappedFirstLine s1 = true)
    (h2 : wrappedFirstLine s2 = true) :
    (post_to_slack_blocks m dr).countP isHeaderBlock = 1 + 2 ∧
    (post_to_slack_blocks m dr).countP isDividerBlock = 2 + 1 := by
  have hq : (pySplit m divider50).countP sectionQualifies = 2 := by
    have hmap : (pySplit m divider50).countP sectionQualifies =
        ((pySplit m divider50).map pyStrip).countP
          (fun t => !t.isEmpty && wrappedFirstLine t) := by
      rw [List.countP_map]
      rfl
    have hfil : ((pySplit m divider50).map pyStrip).countP
        (fun t => !t.isEmpty && wrappedFirstLine t) =
        (((pySplit m divider50).map pyStrip).filter (fun t => !t.isEmpty)).countP
          wrappedFirstLine := by
      rw [List.countP_filter]
      congr 1
      funext t
      exact Bool.and_comm _ _
    rw [hmap, hfil, hsecs]
    simp [List.countP_cons, h1, h2]
  constructor
  · rw [post_to_slack_blocks, List.countP_append,
      countP_flatMap_sections isHeaderBlock sectionBlocks_count_header, hq]
    rfl
  · rw [post_to_slack_blocks, List.countP_append,
      countP_flatMap_sections isDividerBlock sectionBlocks_count_divider, hq]
    rfl

set_option maxRecDepth 40000 in
/-- Witness for C3 on a concrete two-section blob. -/
theorem C3_witness :
    (post_to_slack_blocks
        ("*A*\nfoo\n\n".data ++ divider50 ++ "\n\n*B*\nbar\n\n".data ++ divider50 ++ "\n".data)
        (some "01 Oct 2025 - 08 Oct 2025".data)).countP isHeaderBlock = 1 + 2 ∧
    (post_to_slack_blocks
        ("*A*\nfoo\n\n".data ++ divider50 ++ "\n\n*B*\nbar\n\n".data ++ divider50 ++ "\n".data)
        (some "01 Oct 2025 - 08 Oct 2025".data)).countP isDividerBlock = 2 + 1 :=
  C3_block_counts
    ("*A*\nfoo\n\n".data ++ divider50 ++ "\n\n*B*\nbar\n\n".data ++ divider50 ++ "\n".data)
    (some "01 Oct 2025 - 08 Oct 2025".data)
    "*A*\nfoo".data "*B*\nbar".data (by decide) (by decide) (by decide)

/-- Dropping elements on which `f` is empty does not change a `flatMap`. -/
theorem flatMap_drop_nil {α β : Type} [DecidableEq α] (s : α) (f : α → List β)
    (hf : f s = []) :
    ∀ l : List α, l.flatMap f = (l.filter (fun x => decide (x ≠ s))).flatMap f := by
  intro l
  induction l with
  | nil => rfl
  | cons a rest ih =>
    by_cases h : a = s
    · subst h
      simp [hf, ih]
    · simp [h, ih]

/-- A section whose stripped first line is not emphasis-wrapped produces no
blocks at all. -/
theorem sectionBlocks_eq_nil_of_unwrapped (s : Str)
    (hwf : wrappedFirstLine (pyStrip s) = false) :
    sectionBlocks s = [] := by
  rw [sectionBlocks]
  by_cases hf : (pyStrip s).isEmpty
  · simp [hf]
  · simp only [hf, Bool.false_eq_true, if_false]
    rw [wrappedFirstLine] at hwf
    cases hm : pySplit (pyStrip s) "\n".data with
    | nil => simp
    | cons l0 restLines =>
      cases hp : List.isPrefixOf ['*'] l0 <;> cases hs : List.isSuffixOf ['*'] l0
      · simp [hp, hs]
      · simp [hp, hs]
      · simp [hp, hs]
      · rw [hm] at hwf
        simp [hp, hs] at hwf

/-- C9: a section of the split message that is non-empty after stripping but
whose first line is not both starting and ending with `'*'` contributes no
header, section, or divider block: its per-section block list is empty, so the
outgoing block sequence equals the one computed with every occurrence of that
section dropped; the section's text still reaches the plain-text fallback,
because the split pieces rejoin to the full message from which `text_version`
is derived. -/
theorem C9_unwrapped_section_contributes_no_blocks (m : Str) (dr : Option Str) (s : Str)
    (_hmem : s ∈ pySplit m divider50)
    (_hne : pyStrip s ≠ [])
    (hwf : wrappedFirstLine (pyStrip s) = false) :
    sectionBlocks s = [] ∧
    post_to_slack_blocks m dr =
      [Block.header (header_text dr), Block.divider] ++
        ((pySplit m divider50).filter (fun x => decide (x ≠ s))).flatMap sectionBlocks ∧
    pyJoin divider50 (pySplit m divider50) = m := by
  have hnil := sectionBlocks_eq_nil_of_unwrapped s hwf
  refine ⟨hnil, ?_, ?_⟩
  · rw [post_to_slack_blocks, flatMap_drop_nil s sectionBlocks hnil]
  · exact pyJoin_pySplitGo divider50 (m.length + 1) m (Nat.lt_succ_self _)

set_option maxRecDepth 40000 in
/-- Witness for C9: a raw-text fallback style section (first line ending in
plain text) inside a concrete two-section blob. -/
theorem C9_witness :
    sectionBlocks "\n*B*: raw fallback text".data = [] ∧
    post_to_slack_blocks ("*A*\nfoo\n\n".data ++ divider50 ++ "\n*B*: raw fallback text".data)
        none =
      [Block.header (header_text none), Block.divider] ++
        (((pySplit ("*A*\nfoo\n\n".data ++ divider50 ++ "\n*B*: raw fallback text".data)
            divider50).filter
          (fun x => decide (x ≠ "\n*B*: raw fallback text".data))).flatMap sectionBlocks) ∧
    pyJoin divider50
        (pySplit ("*A*\nfoo\n\n".data ++ divider50 ++ "\n*B*: raw fallback text".data)
          divider50) =
      "*A*\nfoo\n\n".data ++ divider50 ++ "\n*B*: raw fallback text".data :=
  C9_unwrapped_section_contributes_no_blocks
    ("*A*\nfoo\n\n".data ++ divider50 ++ "\n*B*: raw fallback text".data) none
    "\n*B*: raw fallback text".data
    (by decide) (by decide) (by decide)

/-- Splitting on `'\n'` peels off a newline-free first chunk as the first
line. -/
theorem pySplit_newline_cons :
    ∀ s t : Str, '\n' ∉ s →
      pySplit (s ++ '\n' :: t) "\n".data = s :: pySplit t "\n".data := by
  intro s
  induction s with
  | nil =>
    intro t _
    rw [List.nil_append,
      pySplit_cons_match ('\n' :: t) "\n".data (by simp)
        (by simp [List.isPrefixOf]) (by simp)]
    rfl
  | cons c s' ih =>
    intro t h
    have hc : c ≠ '\n' := fun hc => h (by simp [hc])
    have h' : '\n' ∉ s' := fun hmem => h (by simp [hmem])
    rw [List.cons_append,
      pySplit_cons_nomatch c (s' ++ '\n' :: t) "\n".data
        (by
          intro hand
          have h2 := hand.2
          simp [List.isPrefixOf] at h2
          exact hc h2.symm),
      ih t h']

set_option maxRecDepth 40000 in
/-- C4: with the structured reply
`\x7b"categories":[\x7b"name":"Features","items":["Added X"]\x7d]\x7d` — bare
or wrapped in a fenced code block with a `json` language tag — the Summarizer
formats a blob whose lines include one containing the repository name, a
category line containing `Features`, and an indented bullet line (prefixed by
two spaces and the sub-bullet marker) containing `Added X`. -/
theorem C4_structured_reply_roundtrip (generate_summary : Str → Str → Except Str Str)
    (repo_name prs_text reply : Str)
    (hnl : '\n' ∉ repo_name)
    (hne : prs_text ≠ []) (hns : prs_text ≠ noPRsSentinel)
    (hr : reply = c4BareReply ∨ reply = c4FencedReply)
    (hp : generate_summary release_notes_prompt (user_prompt repo_name prs_text) =
      Except.ok reply) :
    ∃ out, summarize_with_ai generate_summary repo_name prs_text = (out, 1) ∧
      (∃ line ∈ pySplit out "\n".data, repo_name <:+: line) ∧
      (∃ line ∈ pySplit out "\n".data, "Features".data <:+: line) ∧
      (∃ line ∈ pySplit out "\n".data,
        ("  ".data ++ subBulletStr ++ " ".data) <+: line ∧ "Added X".data <:+: line) := by
  have hlines : pySplit (('*' :: (repo_name ++ ['*'])) ++ '\n' :: c4Tail) "\n".data =
      ('*' :: (repo_name ++ ['*'])) :: pySplit c4Tail "\n".data :=
    pySplit_newline_cons _ c4Tail (by simp [hnl])
  have hsplitTail : pySplit c4Tail "\n".data =
      [[], "â€¢ *Features*:".data, "  â—¦ Added X".data, [], divider50, []] := by decide
  refine ⟨('*' :: (repo_name ++ ['*'])) ++ '\n' :: c4Tail, ?_, ?_, ?_, ?_⟩
  · rw [summarize_with_ai, if_neg (by simp [hne, hns]), hp]
    have hfmt : formatSlackSummary repo_name c4Data =
        Except.ok (('*' :: (repo_name ++ ['*'])) ++ '\n' :: c4Tail) := by
      simp [formatSlackSummary, formatCatsGo, pyGet, dictGet, pyIter, pyTruthy, pyStr,
        formatOneItem, c4Data, c4Tail, bulletStr, subBulletStr, List.append_assoc]
    rcases hr with hr | hr
    · subst hr
      have hload : jsonLoads (pyStrip (subTrailingFence (subLeadingFence (subLeadingJson
          (pyStrip c4BareReply))))) = some c4Data := rfl
      simp only [hload, hfmt]
    · subst hr
      have hload : jsonLoads (pyStrip (subTrailingFence (subLeadingFence (subLeadingJson
          (pyStrip c4FencedReply))))) = some c4Data := rfl
      simp only [hload, hfmt]
  · rw [hlines]
    exact ⟨'*' :: (repo_name ++ ['*']), List.mem_cons_self _ _, ['*'], ['*'], by simp⟩
  · rw [hlines, hsplitTail]
    refine ⟨"â€¢ *Features*:".data, by simp, ?_⟩
    exact ⟨"â€¢ *".data, "*:".data, by decide⟩
  · rw [hlines, hsplitTail]
    refine ⟨"  â—¦ Added X".data, by simp, ⟨"Added X".data, by decide⟩,
      "  â—¦ ".data, [], by decide⟩

set_option maxRecDepth 40000 in
/-- Witness for C4 on a concrete repository name and the bare reply. -/
theorem C4_witness :
    ∃ out, summarize_with_ai (fun _ _ => Except.ok c4BareReply) "org/repo".data
        "PR #1: stuff".data = (out, 1) ∧
      (∃ line ∈ pySplit out "\n".data, "org/repo".data <:+: line) ∧
      (∃ line ∈ pySplit out "\n".data, "Features".data <:+: line) ∧
      (∃ line ∈ pySplit out "\n".data,
        ("  ".data ++ subBulletStr ++ " ".data) <+: line ∧ "Added X".data <:+: line) :=
  C4_structured_reply_roundtrip (fun _ _ => Except.ok c4BareReply)
    "org/repo".data "PR #1: stuff".data c4BareReply
    (by decide) (by decide) (by decide) (Or.inl rfl) rfl
